import Mathlib

/-!
Shallow embedding of the mood-to-music discovery pipeline
(repository vickyymosafan/svaramind) and proofs about it.

Numeric values (sentiment scores, confidences) are embedded as rationals,
strings as Lean strings.  The repository snapshot contains two versions of
several components (a basic and an extended route handler, two
YouTubeService variants); both are embedded where a claim refers to both.
-/

set_option maxRecDepth 8000

namespace Svaramind

/-! Section: JS string primitives

The embedded code calls JS `trim`, `toLowerCase`, `startsWith` and
`includes`; they are modelled on the character list of the string so that
concrete inputs evaluate inside the kernel. -/

/-- JS `s.trim()`: strip leading and trailing whitespace. -/
def jsTrim (s : String) : String :=
  String.mk (((s.data.dropWhile Char.isWhitespace).reverse.dropWhile Char.isWhitespace).reverse)

/-- JS `s.toLowerCase()` (ASCII-faithful). -/
def jsToLower (s : String) : String :=
  String.mk (s.data.map Char.toLower)

/-- JS `s.startsWith(pat)`. -/
def jsStartsWith (s pat : String) : Bool :=
  pat.data.isPrefixOf s.data

/-! Section: Constants (config/constants.ts) -/

/-- The `MOOD_KEYWORDS.positive` -/
def MOOD_KEYWORDS_positive : String := "upbeat viral song happy energetic"

/-- The `MOOD_KEYWORDS.negative` -/
def MOOD_KEYWORDS_negative : String := "sad viral song melancholic emotional"

/-- The `MOOD_KEYWORDS.neutral` -/
def MOOD_KEYWORDS_neutral : String := "lofi viral music chill relaxing"

/-- The `SENTIMENT_THRESHOLDS.positive.score` -/
def THRESH_pos_score : ℚ := 1

/-- The `SENTIMENT_THRESHOLDS.positive.comparative` -/
def THRESH_pos_comparative : ℚ := 1/10

/-- The `SENTIMENT_THRESHOLDS.negative.score` -/
def THRESH_neg_score : ℚ := -1

/-- The `SENTIMENT_THRESHOLDS.negative.comparative` -/
def THRESH_neg_comparative : ℚ := -(1/10)

/-! Section: Sentiment data model (types/index.ts) -/

/-- The `SentimentResult` from types/index.ts.  `calculation` (an `any[]`
debugging field) is omitted; no embedded code reads it. -/
structure SentimentResult where
  score : ℚ
  comparative : ℚ
  tokens : List String
  words : List String
  positive : List String
  negative : List String
deriving Repr, DecidableEq

/-- The `MoodClassification.category` values. -/
inductive MoodCategory
  | positive
  | negative
  | neutral
deriving Repr, DecidableEq

/-- The `MoodClassification` from types/index.ts. -/
structure MoodClassification where
  category : MoodCategory
  confidence : ℚ
  keywords : String
deriving Repr, DecidableEq

/-! Section: classifyMood (utils/sentiment.ts) -/

/-- The `classifyMood` from utils/sentiment.ts: threshold rules evaluated in
order positive, negative, neutral, with `Math.min(Math.abs(score) / 5, 1)`
as the confidence for the first two branches. -/
def classifyMood (s : SentimentResult) : MoodClassification :=
  if s.score > THRESH_pos_score ∨ s.comparative > THRESH_pos_comparative then
    { category := .positive
      confidence := min (|s.score| / 5) 1
      keywords := MOOD_KEYWORDS_positive }
  else if s.score < THRESH_neg_score ∨ s.comparative < THRESH_neg_comparative then
    { category := .negative
      confidence := min (|s.score| / 5) 1
      keywords := MOOD_KEYWORDS_negative }
  else
    { category := .neutral
      confidence := 1/2
      keywords := MOOD_KEYWORDS_neutral }

/-- The decision rule as the specification words it (section 4.2):
literal thresholds 1, 0.1, -1, -0.1, confidence `min(|score|/5, 1)`,
fixed phrases, neutral confidence 0.5. -/
def classifyMoodSpecRule (s : SentimentResult) : MoodClassification :=
  if s.score > 1 ∨ s.comparative > 1/10 then
    ⟨.positive, min (|s.score| / 5) 1, MOOD_KEYWORDS_positive⟩
  else if s.score < -1 ∨ s.comparative < -(1/10) then
    ⟨.negative, min (|s.score| / 5) 1, MOOD_KEYWORDS_negative⟩
  else
    ⟨.neutral, 1/2, MOOD_KEYWORDS_neutral⟩

/-! Section: String helpers shared by several embedded functions -/

/-- The `pat` occurs as a contiguous sublist of `s` (JS `String.includes`). -/
def listInfix (pat s : List Char) : Bool :=
  (List.range (s.length + 1)).any (fun i => pat.isPrefixOf (s.drop i))

/-- JS `s.includes(pat)`. -/
def strContains (s pat : String) : Bool :=
  listInfix pat.data s.data

/-- JS `s.split(/\s+/)`: pieces between maximal whitespace runs, keeping
the empty boundary pieces JS produces for leading or trailing whitespace. -/
def jsSplitWs (s : String) : List String :=
  let step : List String × List Char × Bool → Char → List String × List Char × Bool :=
    fun st c =>
      match st with
      | (done, cur, sawWs) =>
        if c.isWhitespace then
          if sawWs then (done, cur, sawWs)
          else (done ++ [String.mk cur.reverse], [], true)
        else (done, c :: cur, false)
  match s.data.foldl step ([], [], false) with
  | (done, cur, _) => done ++ [String.mk cur.reverse]

/-! Section: Heuristic scorer (utils/sentiment.ts, analyzeKeywordSentiment) -/

/-- Positive word list of `analyzeKeywordSentiment`. -/
def positiveWords : List String :=
  ["happy", "joy", "excited", "great", "awesome", "amazing", "wonderful", "fantastic",
   "love", "good", "excellent", "perfect", "brilliant", "cheerful", "delighted",
   "energetic", "upbeat", "positive", "optimistic", "confident", "motivated"]

/-- Negative word list of `analyzeKeywordSentiment`. -/
def negativeWords : List String :=
  ["sad", "angry", "depressed", "upset", "frustrated", "disappointed", "terrible",
   "awful", "bad", "horrible", "hate", "annoyed", "stressed", "worried", "anxious",
   "lonely", "tired", "exhausted", "overwhelmed", "down", "melancholy"]

/-- The `analyzeKeywordSentiment` from utils/sentiment.ts: lowercase, split on
whitespace, score = positive hits minus negative hits, comparative =
score / token count. -/
def analyzeKeywordSentiment (text : String) : SentimentResult :=
  let lowerText := jsToLower text
  let words := jsSplitWs lowerText
  let positiveScore := (words.filter (fun w => positiveWords.contains w)).length
  let negativeScore := (words.filter (fun w => negativeWords.contains w)).length
  let score : ℚ := (positiveScore : ℚ) - (negativeScore : ℚ)
  { score := score
    comparative := score / (words.length : ℚ)
    tokens := words
    words := words
    positive := positiveWords.filter (fun w => strContains lowerText w)
    negative := negativeWords.filter (fun w => strContains lowerText w) }

/-- The `validateMoodInput` from utils/sentiment.ts. -/
def validateMoodInput (text : String) : Bool :=
  let trimmedText := jsTrim text
  decide (3 ≤ trimmedText.length) && decide (trimmedText.length ≤ 500)

/-- The `generateKeywords` from utils/sentiment.ts. -/
def generateKeywords : MoodCategory → String
  | .positive => MOOD_KEYWORDS_positive
  | .negative => MOOD_KEYWORDS_negative
  | .neutral => MOOD_KEYWORDS_neutral

/-- The `analyzeSentiment` from utils/sentiment.ts.  The richer sentiment
library is an external collaborator: `lib = some f` models a loaded
library (where `f text = none` models the library throwing, caught and
replaced by the keyword fallback), `lib = none` models the library failing
to initialize.  Empty or whitespace-only text throws. -/
def analyzeSentiment (lib : Option (String → Option SentimentResult))
    (text : String) : Except String SentimentResult :=
  if (jsTrim text).length = 0 then .error "Input text cannot be empty"
  else
    match lib with
    | some analyze =>
      match analyze text with
      | some r => .ok r
      | none => .ok (analyzeKeywordSentiment text)
    | none => .ok (analyzeKeywordSentiment text)

/-- The `analyzeMoodWithFallback` from utils/sentiment.ts: invalid input gives
the neutral 0.3 fallback, a thrown analysis error the neutral 0.2 fallback,
otherwise `classifyMood` of the sentiment result. -/
def analyzeMoodWithFallback (lib : Option (String → Option SentimentResult))
    (text : String) : MoodClassification :=
  if ¬ validateMoodInput text then
    ⟨.neutral, 3/10, MOOD_KEYWORDS_neutral⟩
  else
    match analyzeSentiment lib text with
    | .ok sentimentResult => classifyMood sentimentResult
    | .error _ => ⟨.neutral, 1/5, MOOD_KEYWORDS_neutral⟩

namespace MoodService

/-- The `MoodService.classifyMood` from services/moodService.ts.  The outer
try/catch turns any validation throw into the fixed neutral fallback with
confidence 0.1; a low-confidence result is replaced by a neutral result at
exactly `minConfidence` (the route calls this with `minConfidence = 0.1`). -/
def classifyMood (lib : Option (String → Option SentimentResult))
    (moodText : String) (minConfidence : ℚ) : MoodClassification :=
  if moodText = "" then
    ⟨.neutral, 1/10, generateKeywords .neutral⟩
  else
    let trimmedText := jsTrim moodText
    if ¬ validateMoodInput trimmedText then
      ⟨.neutral, 1/10, generateKeywords .neutral⟩
    else
      let moodClassification := analyzeMoodWithFallback lib trimmedText
      if moodClassification.confidence < minConfidence then
        ⟨.neutral, minConfidence, generateKeywords .neutral⟩
      else
        moodClassification

end MoodService

/-! Section: Error taxonomy (utils/errorHandler.ts) -/

/-- The `ErrorType` enum from utils/errorHandler.ts. -/
inductive ErrorType
  | VALIDATION_ERROR
  | API_ERROR
  | SERVER_ERROR
  | RATE_LIMIT_ERROR
  | AUTHENTICATION_ERROR
  | NETWORK_ERROR
deriving Repr, DecidableEq

/-- The `ERROR_STATUS_CODES` from utils/errorHandler.ts. -/
def ERROR_STATUS_CODES : ErrorType → Nat
  | .VALIDATION_ERROR => 400
  | .API_ERROR => 503
  | .SERVER_ERROR => 500
  | .RATE_LIMIT_ERROR => 429
  | .AUTHENTICATION_ERROR => 401
  | .NETWORK_ERROR => 502

/-- The `ERROR_MESSAGES` from utils/errorHandler.ts. -/
def ERROR_MESSAGES : ErrorType → String
  | .VALIDATION_ERROR => "Please check your input and try again."
  | .API_ERROR => "Unable to fetch music data. Please try again later."
  | .SERVER_ERROR => "An unexpected error occurred. Please try again."
  | .RATE_LIMIT_ERROR => "Too many requests. Please wait a moment and try again."
  | .AUTHENTICATION_ERROR => "Service authentication failed. Please contact support."
  | .NETWORK_ERROR => "Network connection failed. Please check your internet connection."

/-- The `isRetryableError` from utils/errorHandler.ts, restricted to its
`APIErrorClass` branch (the classification on the error type). -/
def isRetryableError (t : ErrorType) : Bool :=
  t = .NETWORK_ERROR ∨ t = .API_ERROR ∨ t = .RATE_LIMIT_ERROR

/-- The section 4.8 table of the specification: status code, retryability
and default message per kind (modelled from the spec, for comparison). -/
def specTableStatus : ErrorType → Nat
  | .VALIDATION_ERROR => 400
  | .AUTHENTICATION_ERROR => 401
  | .API_ERROR => 503
  | .RATE_LIMIT_ERROR => 429
  | .NETWORK_ERROR => 502
  | .SERVER_ERROR => 500

/-- Retryability column of the section 4.8 table (modelled from the spec). -/
def specTableRetryable : ErrorType → Bool
  | .VALIDATION_ERROR => false
  | .AUTHENTICATION_ERROR => false
  | .API_ERROR => true
  | .RATE_LIMIT_ERROR => true
  | .NETWORK_ERROR => true
  | .SERVER_ERROR => true

/-- Default-message column of the section 4.8 table (modelled from the spec). -/
def specTableMessage : ErrorType → String
  | .VALIDATION_ERROR => "Please check your input and try again."
  | .AUTHENTICATION_ERROR => "Service authentication failed."
  | .API_ERROR => "Unable to fetch music data. Please try again later."
  | .RATE_LIMIT_ERROR => "Too many requests. Please wait and try again."
  | .NETWORK_ERROR => "Network connection failed."
  | .SERVER_ERROR => "An unexpected error occurred."

/-! Section: Raw and canonical video data (types/index.ts) -/

/-- A thumbnail entry `{ url, width, height }`; only `url` is ever read. -/
structure Thumb where
  url : String
deriving Repr, DecidableEq

/-- The `snippet.thumbnails` with its three optional size tiers. -/
structure Thumbnails where
  thumbDefault : Option Thumb
  medium : Option Thumb
  high : Option Thumb
deriving Repr, DecidableEq

/-- The `YouTubeVideoItem.id`: a plain string or `{ kind, videoId }`. -/
inductive VideoId
  | str (s : String)
  | obj (kind videoId : String)
deriving Repr, DecidableEq

/-- The `YouTubeVideoItem.snippet`. -/
structure Snippet where
  publishedAt : String
  channelId : String
  title : String
  description : String
  thumbnails : Thumbnails
  channelTitle : String
deriving Repr, DecidableEq

/-- The `YouTubeVideoItem.statistics` (optional, with optional count strings). -/
structure Statistics where
  viewCount : Option String
  likeCount : Option String
deriving Repr, DecidableEq

/-- The `YouTubeVideoItem` from types/index.ts (fields no embedded code reads,
such as `etag`, are omitted). -/
structure YouTubeVideoItem where
  id : VideoId
  snippet : Snippet
  statistics : Option Statistics
deriving Repr, DecidableEq

/-- The canonical `YouTubeVideo` record from types/index.ts. -/
structure YouTubeVideo where
  id : String
  title : String
  channelTitle : String
  thumbnail : String
  publishedAt : String
  viewCount : String
  likeCount : String
deriving Repr, DecidableEq

/-- The `YouTubeAPIResponse`: `items = none` models a payload without an items
array. -/
structure YouTubeAPIResponse where
  items : Option (List YouTubeVideoItem)
deriving Repr, DecidableEq

/-! Section: Transformer (utils/youtubeTransform.ts)

`isValidUrl` calls the WHATWG `new URL` parser, an external primitive; it
is modelled by a parameter `urlParses : String → Bool`.  `new Date()` in
the `publishedAt` default is modelled by a parameter `now : String`. -/

/-- The `isValidUrl` from utils/youtubeTransform.ts: the URL parses and starts
with the http or https scheme prefix. -/
def isValidUrl (urlParses : String → Bool) (url : String) : Bool :=
  urlParses url && (jsStartsWith url "http://" || jsStartsWith url "https://")

/-- The `sanitizeString` from utils/youtubeTransform.ts: strip angle brackets,
trim, return `none` for a non-string or empty result. -/
def sanitizeString (value : String) : Option String :=
  let sanitized := jsTrim (String.mk (value.data.filter (fun c => c != '<' && c != '>')))
  if sanitized.length > 0 then some sanitized else none

/-- The `sanitizeString` applied to the raw `id` field: a `{ kind, videoId }`
object is not a string, so it sanitizes to `none`. -/
def sanitizeVideoId : VideoId → Option String
  | .str s => sanitizeString s
  | .obj _ _ => none

/-- JS falsiness of the raw `id` field (`!item.id`). -/
def idFalsy : VideoId → Bool
  | .str s => s == ""
  | .obj _ _ => false

/-- One step of the `extractThumbnail` priority loop: the candidate tier
qualifies when it exists, its url is truthy, and `isValidUrl` accepts it. -/
def pickThumb (urlParses : String → Bool) (t : Option Thumb) : Option String :=
  match t with
  | some thumbnail =>
    if thumbnail.url != "" && isValidUrl urlParses thumbnail.url then some thumbnail.url
    else none
  | none => none

/-- The `extractThumbnail` from utils/youtubeTransform.ts: first qualifying
tier in the order high, medium, default. -/
def extractThumbnail (urlParses : String → Bool) (thumbnails : Thumbnails) : Option String :=
  match pickThumb urlParses thumbnails.high with
  | some u => some u
  | none =>
    match pickThumb urlParses thumbnails.medium with
    | some u => some u
    | none => pickThumb urlParses thumbnails.thumbDefault

/-- The `transformVideoItem` from utils/youtubeTransform.ts.  The
`!item || !item.snippet` half of the guard is vacuous in the typed model
(both are always present); `!item.id` is `idFalsy`. -/
def transformVideoItem (urlParses : String → Bool) (now : String)
    (item : YouTubeVideoItem) : Option YouTubeVideo :=
  if idFalsy item.id then none
  else
    match extractThumbnail urlParses item.snippet.thumbnails with
    | none => none
    | some thumbnail => some
      { id := (sanitizeVideoId item.id).getD ""
        title := (sanitizeString item.snippet.title).getD "Untitled"
        channelTitle := (sanitizeString item.snippet.channelTitle).getD "Unknown Channel"
        thumbnail := thumbnail
        publishedAt := (sanitizeString item.snippet.publishedAt).getD now
        viewCount := ((item.statistics.bind Statistics.viewCount).bind sanitizeString).getD "0"
        likeCount := ((item.statistics.bind Statistics.likeCount).bind sanitizeString).getD "0" }

/-- The `transformYouTubeResponse` from utils/youtubeTransform.ts: `.map`
followed by `.filter (· ≠ null)` is `filterMap`. -/
def transformYouTubeResponse (urlParses : String → Bool) (now : String)
    (apiResponse : Option YouTubeAPIResponse) : List YouTubeVideo :=
  match apiResponse with
  | none => []
  | some r =>
    match r.items with
    | none => []
    | some items => items.filterMap (transformVideoItem urlParses now)

/-- Number of raw items dropped during per-item transformation.  This
formalizes the `droppedCount` field of the transformer report in the
specification (the count of items not emitted). -/
def droppedCount (urlParses : String → Bool) (now : String)
    (items : List YouTubeVideoItem) : Nat :=
  items.length - (items.filterMap (transformVideoItem urlParses now)).length

/-- The `validateTransformedVideo` from utils/youtubeTransform.ts: the four
required fields are truthy strings with non-blank trim, and the thumbnail
passes `isValidUrl`. -/
def validateTransformedVideo (urlParses : String → Bool) (v : YouTubeVideo) : Bool :=
  (v.id != "" && jsTrim v.id != "") &&
  (v.title != "" && jsTrim v.title != "") &&
  (v.channelTitle != "" && jsTrim v.channelTitle != "") &&
  (v.thumbnail != "" && jsTrim v.thumbnail != "") &&
  isValidUrl urlParses v.thumbnail

/-- Result record of `handleInvalidAPIData`. -/
structure DataValidation where
  isValid : Bool
  errors : List String
  cleanedData : List YouTubeVideo
deriving Repr, DecidableEq

/-- The `handleInvalidAPIData` from utils/youtubeTransform.ts. -/
def handleInvalidAPIData (urlParses : String → Bool) (now : String)
    (apiResponse : Option YouTubeAPIResponse) : DataValidation :=
  match apiResponse with
  | none => ⟨false, ["API response is null or undefined"], []⟩
  | some r =>
    match r.items with
    | none => ⟨false, ["API response missing items array"], []⟩
    | some items =>
      if items.length = 0 then ⟨false, ["No videos found in API response"], []⟩
      else
        let transformedVideos := items.filterMap (transformVideoItem urlParses now)
        let validVideos := transformedVideos.filter (validateTransformedVideo urlParses)
        if validVideos.length = 0 then
          ⟨false, ["No valid videos after transformation and validation"], []⟩
        else
          let filteredCount := transformedVideos.length - validVideos.length
          ⟨true,
           if filteredCount > 0 then
             [toString filteredCount ++ " videos were filtered out due to invalid data"]
           else [],
           validVideos⟩

/-! Section: Region resolution and query building (config/youtube.ts and the two
gateway variants) -/

/-- The `getRegionCode` from config/youtube.ts. -/
def getRegionCode (language : String) : String :=
  if language == "id" then "ID"
  else if language == "en" then "US"
  else "US"

/-- JS truthiness of an optional string argument. -/
def strTruthy : Option String → Bool
  | some s => s != ""
  | none => false

/-- Overwrite-or-append on the query-parameter association list (object
property assignment). -/
def setParam (ps : List (String × String)) (k v : String) : List (String × String) :=
  if ps.any (fun p => p.1 == k) then ps.map (fun p => if p.1 == k then (k, v) else p)
  else ps ++ [(k, v)]

/-- The `delete params[k]`. -/
def delParam (ps : List (String × String)) (k : String) : List (String × String) :=
  ps.filter (fun p => p.1 != k)

/-- Lookup of a query parameter. -/
def getParam (ps : List (String × String)) (k : String) : Option String :=
  (ps.find? (fun p => p.1 == k)).map Prod.snd

/-- The `YOUTUBE_API_CONFIG.defaultParams` from config/youtube.ts, with the
numeric `maxResults: 12` already in its `toString()` form. -/
def YOUTUBE_defaultParams (apiKey : String) : List (String × String) :=
  [("part", "snippet,statistics"), ("chart", "mostPopular"), ("videoCategoryId", "10"),
   ("maxResults", "12"), ("safeSearch", "moderate"), ("key", apiKey)]

/-- A built request URL: endpoint plus query parameters. -/
structure BuiltUrl where
  endpoint : String
  params : List (String × String)
deriving Repr, DecidableEq

/-- The `buildAPIUrl` of the basic `YouTubeService` (services/youtubeService.ts):
spread the default parameters, add `regionCode` and `key`; for a truthy
search query additionally set `q`, `type`, `order` and delete `chart`. -/
def buildAPIUrl_basic (apiKey regionCode : String) (searchQuery : Option String) : BuiltUrl :=
  let endpoint := if strTruthy searchQuery then "/search" else "/videos"
  let params := setParam (setParam (YOUTUBE_defaultParams apiKey) "regionCode" regionCode) "key" apiKey
  if strTruthy searchQuery then
    ⟨endpoint,
     delParam (setParam (setParam (setParam params "q" (searchQuery.getD "")) "type" "video")
        "order" "relevance") "chart"⟩
  else ⟨endpoint, params⟩

/-- The `buildAPIUrl` of the extended `YouTubeService` variant: for a truthy
search query a fresh parameter object with `part: snippet` only, otherwise
the default (chart) parameters. -/
def buildAPIUrl_extended (apiKey regionCode : String) (searchQuery : Option String) : BuiltUrl :=
  if strTruthy searchQuery then
    ⟨"/search",
     [("part", "snippet"), ("q", searchQuery.getD ""), ("type", "video"),
      ("videoCategoryId", "10"), ("maxResults", "12"), ("safeSearch", "moderate"),
      ("order", "relevance"), ("regionCode", regionCode), ("key", apiKey)]⟩
  else
    ⟨"/videos",
     setParam (setParam (YOUTUBE_defaultParams apiKey) "regionCode" regionCode) "key" apiKey⟩

/-! Section: Gateway execution (both `YouTubeService.fetchPopularMusic` variants
share this logic) -/

/-- Transport outcome of the single `fetch` to the external video source. -/
inductive FetchOutcome
  | ok (resp : YouTubeAPIResponse)
  | httpError (status : Nat) (statusText : String)
  | throwErr (msg : String)
deriving Repr

/-- The `handleAPIError` of the `YouTubeService` classes: substring-match the
error message and replace it with a friendlier one. -/
def handleAPIErrorMsg (msg : String) : String :=
  if strContains msg "fetch" then
    "Unable to connect to YouTube API. Please check your internet connection."
  else if strContains msg "403" then
    "YouTube API access denied. Please check your API key."
  else if strContains msg "429" then
    "YouTube API rate limit exceeded. Please try again later."
  else if strContains msg "404" then
    "YouTube API endpoint not found."
  else msg

/-- The `fetchPopularMusic`: non-ok responses and missing or empty item lists
throw; the thrown message passes through `handleAPIError`.  The URL built
for the call is modelled separately by the `buildAPIUrl` functions. -/
def fetchPopularMusic (outcome : FetchOutcome) : Except String YouTubeAPIResponse :=
  match outcome with
  | .throwErr msg => .error (handleAPIErrorMsg msg)
  | .httpError status statusText =>
    .error (handleAPIErrorMsg ("YouTube API error: " ++ toString status ++ " " ++ statusText))
  | .ok resp =>
    match resp.items with
    | none => .error (handleAPIErrorMsg "No videos found for the specified criteria")
    | some items =>
      if items.length = 0 then
        .error (handleAPIErrorMsg "No videos found for the specified criteria")
      else .ok resp

/-! Section: The submission endpoint: two POST handler versions

The snapshot contains a basic `app/api/music/route.ts` and an extended
route handler (the version using `validateMusicAPIRequest` and
`handleInvalidAPIData`).  Both are embedded.  A handler is a function of
the request body, the sentiment-library handle, the transport outcome of
the gateway call, and (for the extended one) the URL-parse oracle; its
result records the HTTP status, the response body fields, and whether the
gateway call was reached. -/

/-- Parsed JSON request body: optional `mood` and `language` fields. -/
structure RouteBody where
  mood : Option String
  language : Option String
deriving Repr, DecidableEq

/-- Observable outcome of a route handler: HTTP status, response body
fields, and whether the network call to the external source was made. -/
structure RouteResponse where
  status : Nat
  success : Bool
  code : Option ErrorType
  error : Option String
  data : Option (List YouTubeVideo)
  moodAnalysis : Option MoodClassification
  networkCalled : Bool
deriving Repr, DecidableEq

/-- The `Math.round(c * 100) / 100` for a non-negative rational. -/
def roundTo2 (c : ℚ) : ℚ :=
  ((⌊c * 100 + 1/2⌋ : ℤ) : ℚ) / 100

/-- JS `a || b` on an optional string. -/
def orElseStr (a : Option String) (b : String) : String :=
  match a with
  | some s => if s == "" then b else s
  | none => b

/-- The inline per-item map of the basic POST handler: nested `videoId` is
used when `id` is not a plain string, the thumbnail falls back through
medium, default, high to a placeholder, counts default to "0".  No item is
ever dropped. -/
def simpleMapItem (item : YouTubeVideoItem) : YouTubeVideo :=
  { id := match item.id with
      | .str s => s
      | .obj _ videoId => orElseStr (some videoId) ""
    title := item.snippet.title
    channelTitle := item.snippet.channelTitle
    thumbnail := orElseStr (item.snippet.thumbnails.medium.map Thumb.url)
      (orElseStr (item.snippet.thumbnails.thumbDefault.map Thumb.url)
        (orElseStr (item.snippet.thumbnails.high.map Thumb.url)
          "https://via.placeholder.com/320x180?text=No+Thumbnail"))
    publishedAt := item.snippet.publishedAt
    viewCount := orElseStr (item.statistics.bind Statistics.viewCount) "0"
    likeCount := orElseStr (item.statistics.bind Statistics.likeCount) "0" }

/-- POST handler of the basic `app/api/music/route.ts`: inline validation
(mood present, trimmed length at least 3 — there is no 500-character
check), mood analysis, gateway call, inline item map; any thrown error is
caught by the generic catch, which answers 500 without an error code. -/
def simplePOST (lib : Option (String → Option SentimentResult))
    (outcome : FetchOutcome) (body : Option RouteBody) : RouteResponse :=
  let missingMood : RouteResponse :=
    ⟨400, false, none, some "Mood field is required and must be a string", none, none, false⟩
  match body with
  | none => missingMood
  | some b =>
    match b.mood with
    | none => missingMood
    | some rawMood =>
      if rawMood == "" then missingMood
      else
        let mood := jsTrim rawMood
        if mood.length < 3 then
          ⟨400, false, none, some "Mood description must be at least 3 characters long",
           none, none, false⟩
        else
          let moodAnalysis := MoodService.classifyMood lib mood (1/10)
          match fetchPopularMusic outcome with
          | .error _ =>
            ⟨500, false, none, some "Unable to analyze your mood. Please try again.",
             none, none, true⟩
          | .ok resp =>
            let videos := (resp.items.getD []).map simpleMapItem
            ⟨200, true, none, none, some videos,
             some ⟨moodAnalysis.category, roundTo2 moodAnalysis.confidence, moodAnalysis.keywords⟩,
             true⟩

/-- The `validateMusicAPIRequest` from utils/errorHandler.ts; returns the
VALIDATION message for an invalid body, `none` when valid. -/
def validateMusicAPIRequest (body : Option RouteBody) : Option String :=
  match body with
  | none => some "Request body must be a valid JSON object"
  | some b =>
    match b.mood with
    | none => some "Mood field is required and must be a string"
    | some mood =>
      if mood == "" then some "Mood field is required and must be a string"
      else
        let trimmedMood := jsTrim mood
        if trimmedMood.length < 3 then
          some "Mood description must be at least 3 characters long"
        else if trimmedMood.length > 500 then
          some "Mood description must be less than 500 characters"
        else
          match b.language with
          | some language =>
            if language != "" && language != "id" && language != "en" then
              some "Language must be either \x22id\x22 or \x22en\x22"
            else none
          | none => none

/-- The `createErrorNextResponse` from utils/errorHandler.ts: status from
`ERROR_STATUS_CODES`, body `success:false` with message and code. -/
def createErrorNextResponse (t : ErrorType) (message : Option String) : RouteResponse :=
  ⟨ERROR_STATUS_CODES t, false, some t, some (message.getD (ERROR_MESSAGES t)), none, none, false⟩

/-- POST handler of the extended route: parse (a parse failure is the
outer `none`), validate via `validateMusicAPIRequest`, mood analysis,
gateway call (failures wrapped as API_ERROR), `handleInvalidAPIData`, and
the success response. -/
def extendedPOST (lib : Option (String → Option SentimentResult))
    (urlParses : String → Bool) (now : String) (outcome : FetchOutcome)
    (parsedBody : Option (Option RouteBody)) : RouteResponse :=
  match parsedBody with
  | none => createErrorNextResponse .VALIDATION_ERROR (some "Invalid JSON format in request body")
  | some body =>
    match validateMusicAPIRequest body with
    | some msg => createErrorNextResponse .VALIDATION_ERROR (some msg)
    | none =>
      let mood := (body.bind RouteBody.mood).getD ""
      let moodAnalysis := MoodService.classifyMood lib mood (1/10)
      match fetchPopularMusic outcome with
      | .error _ =>
        { createErrorNextResponse .API_ERROR
            (some "Unable to fetch music data. Please try again later.") with
          networkCalled := true }
      | .ok resp =>
        let dataValidation := handleInvalidAPIData urlParses now (some resp)
        if ¬ dataValidation.isValid then
          { createErrorNextResponse .API_ERROR
              (some "No valid music found for your mood. Please try a different description.") with
            networkCalled := true }
        else
          ⟨200, true, none, none, some dataValidation.cleanedData,
           some ⟨moodAnalysis.category, roundTo2 moodAnalysis.confidence, moodAnalysis.keywords⟩,
           true⟩

/-- GET handler of the basic route: a literal 405 response without an
error code. -/
def routeBasicGET : RouteResponse :=
  ⟨405, false, none, some "Method GET not allowed. Use POST to submit mood data.", none, none, false⟩

/-- The `handleUnsupportedMethod` from utils/errorHandler.ts. -/
def handleUnsupportedMethod (method : String) : RouteResponse :=
  createErrorNextResponse .VALIDATION_ERROR
    (some ("Method " ++ method ++ " not allowed. Use POST to submit mood data."))

/-- The extended route declares GET, PUT, DELETE and PATCH handlers, each
returning `createErrorNextResponse VALIDATION_ERROR` with a message naming
the method. -/
def routeExtendedUnsupported (method : String) : RouteResponse :=
  createErrorNextResponse .VALIDATION_ERROR
    (some ("Method " ++ method ++ " not allowed. Use POST to submit mood data."))

/-! Section: Consumer-side client (services/apiClient.ts, discoverMusic) -/

/-- Outcome of one attempt of `fetchWithTimeout` + response handling. -/
inductive AttemptOutcome
  | httpOk (validFormat : Bool)
  | httpErr (status : Nat)
  | timedOut
  | fetchThrow
deriving Repr, DecidableEq

/-- An `APIError` (code, optional HTTP status) or a plain `Error`
(`code = none`) raised during one attempt; `wrappedCode` is filled only by
the final NETWORK_ERROR, with the code of the last underlying failure. -/
structure ClientFailure where
  code : Option String
  status : Option Nat
  wrappedCode : Option (Option String)
deriving Repr, DecidableEq

/-- Classify one attempt outcome the way the loop body does. -/
def attemptResult (o : AttemptOutcome) : Except ClientFailure Unit :=
  match o with
  | .httpOk true => .ok ()
  | .httpOk false => .error ⟨some "INVALID_RESPONSE", none, none⟩
  | .httpErr status =>
    if 400 ≤ status ∧ status < 500 then .error ⟨some "CLIENT_ERROR", some status, none⟩
    else .error ⟨some "SERVER_ERROR", some status, none⟩
  | .timedOut => .error ⟨some "TIMEOUT_ERROR", none, none⟩
  | .fetchThrow => .error ⟨none, none, none⟩

/-- The codes the loop refuses to retry. -/
def nonRetryableCode (e : ClientFailure) : Bool :=
  e.code == some "VALIDATION_ERROR" || e.code == some "CLIENT_ERROR"

/-- Trace of one `discoverMusic` run: attempts made, waits performed (ms),
and the final result (`none` = resolved successfully). -/
structure DiscoverRun where
  attempts : Nat
  waits : List Nat
  result : Option ClientFailure
deriving Repr, DecidableEq

/-- The retry loop of `discoverMusic` (MAX_RETRIES = 3, RETRY_DELAY =
1000): non-retryable failures are rethrown at once; the retryable failure of the last attempt becomes a NETWORK_ERROR wrapping it; otherwise sleep
`1000 * attempt` and continue.  `remaining` counts loop iterations still
allowed (`remaining = MAX_RETRIES - attempt + 1`). -/
def runRetry (outcomes : Nat → AttemptOutcome) :
    Nat → Nat → List Nat → DiscoverRun
  | 0, attempt, acc =>
    -- loop exhausted (not reachable from the entry point)
    ⟨attempt - 1, acc, some ⟨some "NETWORK_ERROR", none, some none⟩⟩
  | remaining + 1, attempt, acc =>
    match attemptResult (outcomes attempt) with
    | .ok _ => ⟨attempt, acc, none⟩
    | .error e =>
      if nonRetryableCode e then ⟨attempt, acc, some e⟩
      else if remaining = 0 then
        ⟨attempt, acc, some ⟨some "NETWORK_ERROR", none, some e.code⟩⟩
      else runRetry outcomes remaining (attempt + 1) (acc ++ [1000 * attempt])

/-- The `discoverMusic` from services/apiClient.ts: the pre-loop validation
throws VALIDATION_ERROR without any attempt; otherwise the retry loop
starts at attempt 1 with 3 iterations allowed. -/
def discoverMusic (mood : String) (outcomes : Nat → AttemptOutcome) : DiscoverRun :=
  if mood == "" ∨ (jsTrim mood).length < 3 then
    ⟨0, [], some ⟨some "VALIDATION_ERROR", none, none⟩⟩
  else
    runRetry outcomes 3 1 []

/-! Section: Spec-side definitions for refinement claims -/

/-- The thumbnail rule as the specification words it (section 4.5): the
candidate URL must parse as a URL and use the http or https scheme. -/
def specUrlOk (urlParses : String → Bool) (u : String) : Bool :=
  urlParses u && (jsStartsWith u "http://" || jsStartsWith u "https://")

/-- The thumbnail selection as the specification words it: the first
available of high, medium, default resolution whose URL passes
`specUrlOk`, else none. -/
def specThumbSelect (urlParses : String → Bool) (t : Thumbnails) : Option String :=
  match (t.high.map Thumb.url).filter (specUrlOk urlParses) with
  | some u => some u
  | none =>
    match (t.medium.map Thumb.url).filter (specUrlOk urlParses) with
    | some u => some u
    | none => (t.thumbDefault.map Thumb.url).filter (specUrlOk urlParses)

/-! Section: Concrete inputs used by witnesses and counterexamples -/

/-- A 501-character mood description (over the 500-character cap). -/
def longMood : String := String.mk (List.replicate 501 'a')

/-- A snippet with the given title, channel and published date, a single
high-resolution thumbnail, and empty remaining fields. -/
def mkSnippet (title channel published url : String) : Snippet :=
  ⟨published, "", title, "", ⟨none, none, some ⟨url⟩⟩, channel⟩

/-- A fully valid raw item (string id, https thumbnail). -/
def itemGood : YouTubeVideoItem :=
  ⟨.str "vid1", mkSnippet "Song" "Chan" "2020-01-01" "https://img.example.com/1.jpg", none⟩

/-- The canonical video `itemGood` transforms to. -/
def vidGood : YouTubeVideo :=
  ⟨"vid1", "Song", "Chan", "https://img.example.com/1.jpg", "2020-01-01", "0", "0"⟩

/-- A raw item whose only thumbnail URL is not an http or https URL. -/
def itemBadThumb : YouTubeVideoItem :=
  ⟨.str "vid2", mkSnippet "Other" "Chan" "2020-01-02" "notaurl", none⟩

/-- A raw item whose `id` is the nested `{ kind, videoId }` object form. -/
def itemObjId : YouTubeVideoItem :=
  ⟨.obj "youtube#searchResult" "abc123",
   mkSnippet "Clip" "Chan" "2020-01-03" "https://img.example.com/3.jpg", none⟩

end Svaramind

namespace Svaramind

/-! Section: Shared helper lemmas -/

/-- A pattern occurring as the middle of a concatenation is an infix. -/
theorem listInfix_append (p a b : List Char) :
    listInfix p (a ++ (p ++ b)) = true := by
  unfold listInfix
  rw [List.any_eq_true]
  refine ⟨a.length, ?_, ?_⟩
  · rw [List.mem_range]
    have : a.length ≤ (a ++ (p ++ b)).length := by
      simp [List.length_append]
    omega
  · rw [List.drop_append_of_le_length (le_refl _), List.drop_length, List.nil_append]
    rw [List.isPrefixOf_iff_prefix]
    exact List.prefix_append p b

/-- The `classifyMood` only ever returns the three fixed keyword phrases,
matching its category. -/
theorem classifyMood_keywords (s : SentimentResult) :
    (classifyMood s).keywords = generateKeywords (classifyMood s).category := by
  unfold classifyMood generateKeywords
  split_ifs <;> rfl

/-- The confidence produced by `classifyMood` lies in `[0, 1]`. -/
theorem classifyMood_confidence_bounds (s : SentimentResult) :
    0 ≤ (classifyMood s).confidence ∧ (classifyMood s).confidence ≤ 1 := by
  unfold classifyMood
  split_ifs <;> constructor <;>
    first
      | exact le_min (by positivity) zero_le_one
      | exact min_le_right _ _
      | norm_num

/-- The category produced by `classifyMood` is one of the three values. -/
theorem classifyMood_category_mem (s : SentimentResult) :
    (classifyMood s).category = .positive ∨ (classifyMood s).category = .negative ∨
      (classifyMood s).category = .neutral := by
  unfold classifyMood
  split_ifs <;> simp

/-! Section: Claim theorems -/

/-- C3: `classifyMood` evaluates its rules in fixed order — positive when
score > 1 or comparative > 0.1 with confidence min(|score|/5, 1) and the
fixed positive phrase, else negative when score < -1 or comparative < -0.1
with the same confidence formula and the fixed negative phrase, else
neutral with confidence 0.5 and the fixed neutral phrase (stated as
equality with the spec-worded rule) — hence for every SentimentResult the
category is one of the three values and the confidence lies in [0, 1]. -/
theorem C3_classifyMood_rule_and_total :
    (∀ s : SentimentResult, classifyMood s = classifyMoodSpecRule s) ∧
    (∀ s : SentimentResult,
      (classifyMood s).category = .positive ∨ (classifyMood s).category = .negative ∨
        (classifyMood s).category = .neutral) ∧
    (∀ s : SentimentResult,
      0 ≤ (classifyMood s).confidence ∧ (classifyMood s).confidence ≤ 1) := by
  refine ⟨fun s => rfl, classifyMood_category_mem, classifyMood_confidence_bounds⟩

/-- The three fixed keyword phrases are non-empty. -/
theorem generateKeywords_ne_empty (c : MoodCategory) : generateKeywords c ≠ "" := by
  cases c <;> decide

/-- The `analyzeMoodWithFallback` always returns one of the three categories,
with the fixed keyword phrase of that category. -/
theorem analyzeMoodWithFallback_shape
    (lib : Option (String → Option SentimentResult)) (text : String) :
    (analyzeMoodWithFallback lib text).keywords =
      generateKeywords (analyzeMoodWithFallback lib text).category ∧
    ((analyzeMoodWithFallback lib text).category = .positive ∨
     (analyzeMoodWithFallback lib text).category = .negative ∨
     (analyzeMoodWithFallback lib text).category = .neutral) := by
  by_cases hv : validateMoodInput text
  · cases h : analyzeSentiment lib text with
    | ok r =>
      have hres : analyzeMoodWithFallback lib text = classifyMood r := by
        unfold analyzeMoodWithFallback
        rw [if_neg (by simp [hv]), h]
      rw [hres]
      exact ⟨classifyMood_keywords r, classifyMood_category_mem r⟩
    | error e =>
      have hres : analyzeMoodWithFallback lib text =
          ⟨.neutral, 1/5, MOOD_KEYWORDS_neutral⟩ := by
        unfold analyzeMoodWithFallback
        rw [if_neg (by simp [hv]), h]
      rw [hres]
      exact ⟨rfl, Or.inr (Or.inr rfl)⟩
  · have hres : analyzeMoodWithFallback lib text =
        ⟨.neutral, 3/10, MOOD_KEYWORDS_neutral⟩ := by
      unfold analyzeMoodWithFallback
      rw [if_pos hv]
    rw [hres]
    exact ⟨rfl, Or.inr (Or.inr rfl)⟩

/-- Unfolding equation for `MoodService.classifyMood` with the local
`trimmedText` binding expanded. -/
theorem MoodService.classifyMood_eq (lib : Option (String → Option SentimentResult))
    (moodText : String) (minConfidence : ℚ) :
    MoodService.classifyMood lib moodText minConfidence =
      if moodText = "" then ⟨.neutral, 1/10, generateKeywords .neutral⟩
      else if ¬ validateMoodInput (jsTrim moodText) then
        ⟨.neutral, 1/10, generateKeywords .neutral⟩
      else if (analyzeMoodWithFallback lib (jsTrim moodText)).confidence < minConfidence then
        ⟨.neutral, minConfidence, generateKeywords .neutral⟩
      else analyzeMoodWithFallback lib (jsTrim moodText) := rfl

/-- C10 (amended): `MoodService.classifyMood` is total on its string input
and always returns a category among the three values with a non-empty
keyword phrase; its confidence is at least `min minConfidence 0.1` (with
the default option 0.1 this is at least 0.1, but an invalid input combined
with a larger `minConfidence` yields only the fixed 0.1 fallback); every
invalid input (trimmed length outside 3..500) yields exactly the neutral
fallback classification with confidence 0.1. -/
theorem C10_moodservice_total (lib : Option (String → Option SentimentResult))
    (moodText : String) (minConfidence : ℚ) :
    ((MoodService.classifyMood lib moodText minConfidence).category = .positive ∨
     (MoodService.classifyMood lib moodText minConfidence).category = .negative ∨
     (MoodService.classifyMood lib moodText minConfidence).category = .neutral) ∧
    (MoodService.classifyMood lib moodText minConfidence).keywords ≠ "" ∧
    min minConfidence (1/10) ≤ (MoodService.classifyMood lib moodText minConfidence).confidence ∧
    (validateMoodInput (jsTrim moodText) = false →
      MoodService.classifyMood lib moodText minConfidence =
        ⟨.neutral, 1/10, MOOD_KEYWORDS_neutral⟩) := by
  rw [MoodService.classifyMood_eq]
  by_cases h0 : moodText = ""
  · rw [if_pos h0]
    exact ⟨Or.inr (Or.inr rfl), by decide, min_le_right _ _, fun _ => rfl⟩
  · rw [if_neg h0]
    by_cases hv : validateMoodInput (jsTrim moodText)
    · rw [if_neg (by simp [hv])]
      by_cases hc : (analyzeMoodWithFallback lib (jsTrim moodText)).confidence < minConfidence
      · rw [if_pos hc]
        refine ⟨Or.inr (Or.inr rfl), generateKeywords_ne_empty MoodCategory.neutral,
          min_le_left _ _, fun hfalse => ?_⟩
        rw [hfalse] at hv
        simp at hv
      · rw [if_neg hc]
        obtain ⟨hk, hcat⟩ := analyzeMoodWithFallback_shape lib (jsTrim moodText)
        refine ⟨hcat, ?_, ?_, fun hfalse => ?_⟩
        · rw [hk]
          exact generateKeywords_ne_empty _
        · exact le_trans (min_le_left _ _) (not_lt.mp hc)
        · rw [hfalse] at hv
          simp at hv
    · rw [if_pos (by simp [hv])]
      exact ⟨Or.inr (Or.inr rfl), by decide, min_le_right _ _, fun _ => rfl⟩

/-- C10 counterexample: with `minConfidence = 0.5` and the invalid input
"ab", `MoodService.classifyMood` returns the fixed neutral fallback with
confidence 0.1, below the `minConfidence` option — so the claimed
"confidence at least the minConfidence option" fails. -/
theorem C10_counterexample :
    MoodService.classifyMood none "ab" (1/2) = ⟨.neutral, 1/10, MOOD_KEYWORDS_neutral⟩ ∧
    (MoodService.classifyMood none "ab" (1/2)).confidence < 1/2 := by
  refine ⟨rfl, ?_⟩
  rw [show MoodService.classifyMood none "ab" (1/2) =
    ⟨.neutral, 1/10, MOOD_KEYWORDS_neutral⟩ from rfl]
  norm_num

/-- C10 witness: the amended theorem applied at the concrete invalid input
"ab" with `minConfidence = 0.5`. -/
theorem C10_witness :
    validateMoodInput (jsTrim "ab") = false ∧
    MoodService.classifyMood none "ab" (1/2) = ⟨.neutral, 1/10, MOOD_KEYWORDS_neutral⟩ :=
  ⟨by decide, (C10_moodservice_total none "ab" (1/2)).2.2.2 (by decide)⟩

/-- The `pickThumb` agrees with the spec-worded filtering of one tier (the
extra JS truthiness check on the url is subsumed: an empty url never
passes the scheme check). -/
theorem pickThumb_eq_filter (up : String → Bool) (o : Option Thumb) :
    pickThumb up o = (o.map Thumb.url).filter (specUrlOk up) := by
  cases o with
  | none => rfl
  | some th =>
    by_cases h : th.url = ""
    · simp [pickThumb, Option.filter, specUrlOk, isValidUrl, h, jsStartsWith]
    · simp [pickThumb, Option.filter, specUrlOk, isValidUrl, h]

/-- A url returned by `pickThumb` passes `isValidUrl`. -/
theorem pickThumb_valid (up : String → Bool) (o : Option Thumb) (u : String)
    (h : pickThumb up o = some u) : isValidUrl up u = true := by
  cases o with
  | none => simp [pickThumb] at h
  | some th =>
    have h' : (if (th.url != "" && isValidUrl up th.url) = true then some th.url
        else none) = some u := h
    by_cases hc : (th.url != "" && isValidUrl up th.url) = true
    · rw [if_pos hc] at h'
      injection h' with h'
      rw [← h']
      exact ((Bool.and_eq_true _ _).mp hc).2
    · rw [if_neg hc] at h'
      cases h'

/-- A url returned by `extractThumbnail` passes `isValidUrl`. -/
theorem extractThumbnail_valid (up : String → Bool) (t : Thumbnails) (u : String)
    (h : extractThumbnail up t = some u) : isValidUrl up u = true := by
  unfold extractThumbnail at h
  cases h1 : pickThumb up t.high with
  | some w => rw [h1] at h; injection h with h; rw [← h]; exact pickThumb_valid up _ _ h1
  | none =>
    rw [h1] at h
    cases h2 : pickThumb up t.medium with
    | some w => rw [h2] at h; injection h with h; rw [← h]; exact pickThumb_valid up _ _ h2
    | none =>
      rw [h2] at h
      exact pickThumb_valid up _ _ h

/-- C5: the transformer selects the thumbnail as the first of high,
medium, default whose URL parses with an http or https scheme (stated as
equality with the spec-worded selector); an item with no qualifying
thumbnail is dropped entirely, so no emitted canonical video carries a
thumbnail failing `isValidUrl`, and each such dropped item increments the
dropped count by exactly 1. -/
theorem C5_thumbnail_invariant (urlParses : String → Bool) (now : String) :
    (∀ t, extractThumbnail urlParses t = specThumbSelect urlParses t) ∧
    (∀ item v, transformVideoItem urlParses now item = some v →
      isValidUrl urlParses v.thumbnail = true) ∧
    (∀ items item, extractThumbnail urlParses item.snippet.thumbnails = none →
      transformVideoItem urlParses now item = none ∧
      droppedCount urlParses now (items ++ [item]) =
        droppedCount urlParses now items + 1) := by
  refine ⟨fun t => ?_, fun item v h => ?_, fun items item hdrop => ?_⟩
  · unfold extractThumbnail specThumbSelect
    rw [pickThumb_eq_filter, pickThumb_eq_filter, pickThumb_eq_filter]
  · unfold transformVideoItem at h
    by_cases hid : idFalsy item.id
    · rw [if_pos hid] at h
      cases h
    · rw [if_neg hid] at h
      cases hth : extractThumbnail urlParses item.snippet.thumbnails with
      | none => rw [hth] at h; cases h
      | some u =>
        rw [hth] at h
        injection h with h
        rw [← h]
        exact extractThumbnail_valid urlParses _ _ hth
  · have hnone : transformVideoItem urlParses now item = none := by
      unfold transformVideoItem
      by_cases hid : idFalsy item.id
      · rw [if_pos hid]
      · rw [if_neg hid, hdrop]
    refine ⟨hnone, ?_⟩
    unfold droppedCount
    rw [List.filterMap_append]
    have h1 : List.filterMap (transformVideoItem urlParses now) [item] = [] := by
      simp [hnone]
    rw [h1, List.append_nil, List.length_append]
    have h2 : (List.filterMap (transformVideoItem urlParses now) items).length ≤
        items.length := List.length_filterMap_le _ _
    simp only [List.length_cons, List.length_nil]
    omega

/-- C5 witness: with a permissive URL parser, the valid item is emitted
with an https thumbnail accepted by `isValidUrl`, while the item whose
only thumbnail is "notaurl" is dropped and increments the dropped count
by 1. -/
theorem C5_witness :
    isValidUrl (fun _ => true) vidGood.thumbnail = true ∧
    transformVideoItem (fun _ => true) "2024-01-01" itemBadThumb = none ∧
    droppedCount (fun _ => true) "2024-01-01" [itemGood, itemBadThumb] =
      droppedCount (fun _ => true) "2024-01-01" [itemGood] + 1 :=
  ⟨(C5_thumbnail_invariant (fun _ => true) "2024-01-01").2.1 itemGood vidGood rfl,
   ((C5_thumbnail_invariant (fun _ => true) "2024-01-01").2.2 [itemGood] itemBadThumb rfl).1,
   ((C5_thumbnail_invariant (fun _ => true) "2024-01-01").2.2 [itemGood] itemBadThumb rfl).2⟩

/-- Every video in the cleaned data of `handleInvalidAPIData` passed
`validateTransformedVideo`. -/
theorem cleanedData_validated (urlParses : String → Bool) (now : String)
    (apiResponse : Option YouTubeAPIResponse) (v : YouTubeVideo)
    (hv : v ∈ (handleInvalidAPIData urlParses now apiResponse).cleanedData) :
    validateTransformedVideo urlParses v = true := by
  cases apiResponse with
  | none => simp [handleInvalidAPIData] at hv
  | some r =>
    cases hit : r.items with
    | none => simp [handleInvalidAPIData, hit] at hv
    | some items =>
      simp only [handleInvalidAPIData, hit] at hv
      by_cases h0 : items.length = 0
      · rw [if_pos h0] at hv
        simp at hv
      · rw [if_neg h0] at hv
        by_cases h1 : (List.filter (validateTransformedVideo urlParses)
            (List.filterMap (transformVideoItem urlParses now) items)).length = 0
        · rw [if_pos h1] at hv
          simp at hv
        · rw [if_neg h1] at hv
          simp only [DataValidation.mk.injEq] at hv
          exact (List.mem_filter.mp hv).2

/-- C6 counterexample: a raw item whose `id` is the object form with the
non-empty nested `videoId` "abc123" is not dropped and is emitted with the
empty id "": `transformVideoItem` never consults the nested identifier. -/
theorem C6_counterexample :
    itemObjId.id = .obj "youtube#searchResult" "abc123" ∧
    transformVideoItem (fun _ => true) "2024-01-01" itemObjId =
      some ⟨"", "Clip", "Chan", "https://img.example.com/3.jpg", "2020-01-03", "0", "0"⟩ :=
  ⟨rfl, rfl⟩

/-- C6 (amended): `transformVideoItem` resolves the id from the plain
string form only — its output is independent of the nested `videoId`, and
an object-form id yields the empty string.  The blank ids are instead
removed downstream: every video in the cleaned data of `handleInvalidAPIData`
has a non-blank id.  The inline map of the basic route is the code that
consults the nested `videoId` (plain string form first), but it emits the
item even when the id resolves to the empty string. -/
theorem C6_video_id (urlParses : String → Bool) (now : String) :
    (∀ kind v1 v2 snip stats,
      transformVideoItem urlParses now ⟨.obj kind v1, snip, stats⟩ =
        transformVideoItem urlParses now ⟨.obj kind v2, snip, stats⟩) ∧
    (∀ resp v, v ∈ (handleInvalidAPIData urlParses now resp).cleanedData →
      v.id ≠ "" ∧ jsTrim v.id ≠ "") ∧
    (∀ kind videoId snip stats,
      (simpleMapItem ⟨.obj kind videoId, snip, stats⟩).id = videoId) ∧
    (∀ s snip stats, (simpleMapItem ⟨.str s, snip, stats⟩).id = s) := by
  refine ⟨fun kind v1 v2 snip stats => rfl, fun resp v hv => ?_, fun kind videoId snip stats => ?_,
    fun s snip stats => rfl⟩
  · have hval := cleanedData_validated urlParses now resp v hv
    unfold validateTransformedVideo at hval
    have h1 := ((Bool.and_eq_true _ _).mp ((Bool.and_eq_true _ _).mp ((Bool.and_eq_true _ _).mp
      ((Bool.and_eq_true _ _).mp hval).1).1).1).1
    exact ⟨bne_iff_ne.mp ((Bool.and_eq_true _ _).mp h1).1,
      bne_iff_ne.mp ((Bool.and_eq_true _ _).mp h1).2⟩
  · show orElseStr (some videoId) "" = videoId
    by_cases h : videoId = ""
    · simp [orElseStr, h]
    · simp [orElseStr, h]

/-- C6 witness: the amended theorem applied to a one-item payload whose
item survives the pipeline — its id in the cleaned data is non-blank. -/
theorem C6_witness :
    vidGood.id ≠ "" ∧ jsTrim vidGood.id ≠ "" :=
  (C6_video_id (fun _ => true) "2024-01-01").2.1 (some ⟨some [itemGood]⟩) vidGood
    (by rw [show (handleInvalidAPIData (fun _ => true) "2024-01-01"
        (some ⟨some [itemGood]⟩)).cleanedData = [vidGood] from rfl]
        exact List.mem_singleton_self _)

/-- Attempt-count bound for the retry loop: starting at `attempt ≥ 1` with
`remaining` iterations allowed, at most `attempt + remaining - 1` attempts
are made. -/
theorem runRetry_attempts_le (outcomes : Nat → AttemptOutcome) (remaining : Nat) :
    ∀ (attempt : Nat) (acc : List Nat), 1 ≤ attempt →
      (runRetry outcomes remaining attempt acc).attempts + 1 ≤ attempt + remaining := by
  induction remaining with
  | zero =>
    intro attempt acc h1
    simp only [runRetry]
    omega
  | succ n ih =>
    intro attempt acc h1
    simp only [runRetry]
    cases h : attemptResult (outcomes attempt) with
    | ok u =>
      dsimp only
      omega
    | error e =>
      dsimp only
      by_cases hnr : nonRetryableCode e = true
      · rw [if_pos hnr]
        dsimp only
        omega
      · rw [if_neg hnr]
        by_cases hr : n = 0
        · rw [if_pos hr]
          dsimp only
          omega
        · rw [if_neg hr]
          have := ih (attempt + 1) (acc ++ [1000 * attempt]) (by omega)
          omega

/-- One retryable-failure step of the loop with iterations left: wait
`1000 * attempt` and move to the next attempt. -/
theorem runRetry_step (outcomes : Nat → AttemptOutcome) (rem att : Nat)
    (acc : List Nat) (e : ClientFailure) (he : attemptResult (outcomes att) = .error e)
    (hnr : nonRetryableCode e = false) (hrem : ¬ rem = 0) :
    runRetry outcomes (rem + 1) att acc =
      runRetry outcomes rem (att + 1) (acc ++ [1000 * att]) := by
  simp only [runRetry, he]
  rw [if_neg (by simp [hnr]), if_neg hrem]

/-- The final iteration of the loop on a retryable failure: surface a
NETWORK_ERROR wrapping the last failure. -/
theorem runRetry_last (outcomes : Nat → AttemptOutcome) (att : Nat) (acc : List Nat)
    (e : ClientFailure) (he : attemptResult (outcomes att) = .error e)
    (hnr : nonRetryableCode e = false) :
    runRetry outcomes 1 att acc = ⟨att, acc, some ⟨some "NETWORK_ERROR", none, some e.code⟩⟩ := by
  show runRetry outcomes (0 + 1) att acc = _
  simp only [runRetry, he]
  rw [if_neg (by simp [hnr])]
  simp

/-- C4: the client makes at most 3 attempts; when every attempt fails
retryably it makes exactly 3 attempts with waits of 1000 ms then 2000 ms
and fails with a NETWORK-kind error wrapping the code of the last failure; when
the first failure is non-retryable (VALIDATION or client-class code) it
makes exactly 1 attempt, no waits, and fails with that error. -/
theorem C4_retry_client (mood : String) (outcomes : Nat → AttemptOutcome) :
    (discoverMusic mood outcomes).attempts ≤ 3 ∧
    (¬((mood == "") = true ∨ (jsTrim mood).length < 3) →
      (∀ e1 e2 e3 : ClientFailure,
        attemptResult (outcomes 1) = .error e1 → nonRetryableCode e1 = false →
        attemptResult (outcomes 2) = .error e2 → nonRetryableCode e2 = false →
        attemptResult (outcomes 3) = .error e3 → nonRetryableCode e3 = false →
        discoverMusic mood outcomes =
          ⟨3, [1000, 2000], some ⟨some "NETWORK_ERROR", none, some e3.code⟩⟩) ∧
      (∀ e1 : ClientFailure,
        attemptResult (outcomes 1) = .error e1 → nonRetryableCode e1 = true →
        discoverMusic mood outcomes = ⟨1, [], some e1⟩)) := by
  refine ⟨?_, fun hmood => ⟨?_, ?_⟩⟩
  · unfold discoverMusic
    by_cases hm : (mood == "") = true ∨ (jsTrim mood).length < 3
    · rw [if_pos hm]
      dsimp only
      omega
    · rw [if_neg hm]
      have := runRetry_attempts_le outcomes 3 1 [] (by omega)
      omega
  · intro e1 e2 e3 he1 hnr1 he2 hnr2 he3 hnr3
    unfold discoverMusic
    rw [if_neg hmood]
    have s1 : runRetry outcomes 3 1 [] = runRetry outcomes 2 2 [1000] := by
      have := runRetry_step outcomes 2 1 [] e1 he1 hnr1 (by omega)
      simpa using this
    have s2 : runRetry outcomes 2 2 [1000] = runRetry outcomes 1 3 [1000, 2000] := by
      have := runRetry_step outcomes 1 2 [1000] e2 he2 hnr2 (by omega)
      simpa using this
    rw [s1, s2, runRetry_last outcomes 3 [1000, 2000] e3 he3 hnr3]
  · intro e1 he1 hnr1
    unfold discoverMusic
    rw [if_neg hmood]
    show runRetry outcomes (2 + 1) 1 [] = _
    simp only [runRetry, he1]
    rw [if_pos hnr1]

/-- C4 witness: a stub that always answers HTTP 503 gives 3 attempts,
waits [1000, 2000] and a NETWORK_ERROR wrapping SERVER_ERROR; a stub that
answers HTTP 400 on the first attempt gives exactly 1 attempt failing with
CLIENT_ERROR. -/
theorem C4_witness :
    discoverMusic "happy vibes" (fun _ => .httpErr 503) =
      ⟨3, [1000, 2000], some ⟨some "NETWORK_ERROR", none, some (some "SERVER_ERROR")⟩⟩ ∧
    discoverMusic "happy vibes" (fun _ => .httpErr 400) =
      ⟨1, [], some ⟨some "CLIENT_ERROR", some 400, none⟩⟩ :=
  ⟨((C4_retry_client "happy vibes" (fun _ => .httpErr 503)).2 (by decide)).1
      ⟨some "SERVER_ERROR", some 503, none⟩ ⟨some "SERVER_ERROR", some 503, none⟩
      ⟨some "SERVER_ERROR", some 503, none⟩ rfl rfl rfl rfl rfl rfl,
   ((C4_retry_client "happy vibes" (fun _ => .httpErr 400)).2 (by decide)).2
      ⟨some "CLIENT_ERROR", some 400, none⟩ rfl rfl⟩

/-- C8 counterexample: the search-shape URL of the basic gateway keeps the
combined `part=snippet,statistics` field list — the statistics part is
present, so the search query is not metadata-only. -/
theorem C8_counterexample :
    getParam (buildAPIUrl_basic "KEY" "US" (some "upbeat")).params "part" =
      some "snippet,statistics" ∧
    strContains "snippet,statistics" "statistics" = true := by
  exact ⟨rfl, by decide⟩

/-- C8 (amended): for a non-empty keyword phrase the extended gateway
builds exactly the claimed search shape — endpoint /search, metadata-only
`part=snippet`, `type=video`, music category 10, `order=relevance`, cap
12, safe-search moderate, the region code and the key; the basic gateway
builds the same search-shape parameters except that `part` remains the
combined `snippet,statistics` list (and `chart` is removed). -/
theorem C8_search_shape (apiKey regionCode q : String) (hq : q ≠ "") :
    buildAPIUrl_extended apiKey regionCode (some q) =
      ⟨"/search",
       [("part", "snippet"), ("q", q), ("type", "video"), ("videoCategoryId", "10"),
        ("maxResults", "12"), ("safeSearch", "moderate"), ("order", "relevance"),
        ("regionCode", regionCode), ("key", apiKey)]⟩ ∧
    (buildAPIUrl_basic apiKey regionCode (some q)).endpoint = "/search" ∧
    getParam (buildAPIUrl_basic apiKey regionCode (some q)).params "part" =
      some "snippet,statistics" ∧
    getParam (buildAPIUrl_basic apiKey regionCode (some q)).params "type" = some "video" ∧
    getParam (buildAPIUrl_basic apiKey regionCode (some q)).params "order" = some "relevance" ∧
    getParam (buildAPIUrl_basic apiKey regionCode (some q)).params "q" = some q ∧
    getParam (buildAPIUrl_basic apiKey regionCode (some q)).params "videoCategoryId" =
      some "10" ∧
    getParam (buildAPIUrl_basic apiKey regionCode (some q)).params "maxResults" = some "12" ∧
    getParam (buildAPIUrl_basic apiKey regionCode (some q)).params "safeSearch" =
      some "moderate" ∧
    getParam (buildAPIUrl_basic apiKey regionCode (some q)).params "regionCode" =
      some regionCode ∧
    getParam (buildAPIUrl_basic apiKey regionCode (some q)).params "key" = some apiKey ∧
    getParam (buildAPIUrl_basic apiKey regionCode (some q)).params "chart" = none := by
  have hq' : (q != "") = true := bne_iff_ne.mpr hq
  have ht : strTruthy (some q) = true := by simp [strTruthy, hq']
  have hext : buildAPIUrl_extended apiKey regionCode (some q) =
      ⟨"/search",
       [("part", "snippet"), ("q", q), ("type", "video"), ("videoCategoryId", "10"),
        ("maxResults", "12"), ("safeSearch", "moderate"), ("order", "relevance"),
        ("regionCode", regionCode), ("key", apiKey)]⟩ := by
    unfold buildAPIUrl_extended
    rw [if_pos ht]
    rfl
  have hbasic : buildAPIUrl_basic apiKey regionCode (some q) =
      ⟨"/search",
       [("part", "snippet,statistics"), ("videoCategoryId", "10"), ("maxResults", "12"),
        ("safeSearch", "moderate"), ("key", apiKey), ("regionCode", regionCode), ("q", q),
        ("type", "video"), ("order", "relevance")]⟩ := by
    unfold buildAPIUrl_basic
    rw [ht]
    simp [setParam, delParam, YOUTUBE_defaultParams]
  rw [hext, hbasic]
  exact ⟨rfl, rfl, rfl, rfl, rfl, rfl, rfl, rfl, rfl, rfl, rfl, rfl⟩

/-- C8 witness: the amended theorem at a concrete key, region and the
fixed positive keyword phrase. -/
theorem C8_witness :
    buildAPIUrl_extended "KEY" "ID" (some "upbeat viral song happy energetic") =
      ⟨"/search",
       [("part", "snippet"), ("q", "upbeat viral song happy energetic"), ("type", "video"),
        ("videoCategoryId", "10"), ("maxResults", "12"), ("safeSearch", "moderate"),
        ("order", "relevance"), ("regionCode", "ID"), ("key", "KEY")]⟩ :=
  (C8_search_shape "KEY" "ID" "upbeat viral song happy energetic" (by decide)).1

/-- C1 counterexample: a 501-character mood passes the basic POST
validation of the basic handler (it only checks the lower bound), so the handler
proceeds to the network call instead of failing with VALIDATION. -/
theorem C1_counterexample :
    (jsTrim longMood).length = 501 ∧
    (simplePOST none (.ok ⟨some []⟩) (some ⟨some longMood, none⟩)).networkCalled = true ∧
    (simplePOST none (.ok ⟨some []⟩) (some ⟨some longMood, none⟩)).code = none := by
  refine ⟨by decide, by decide, by decide⟩

/-- C1 (amended): the extended handler fails with a VALIDATION_ERROR
(status 400) before any network call whenever the trimmed mood length is
below 3 or above 500; the basic handler does so (status 400, but without
an error code) only for trimmed length below 3 — it does not enforce the
500-character cap. -/
theorem C1_validation_gate (lib : Option (String → Option SentimentResult))
    (urlParses : String → Bool) (now : String) (outcome : FetchOutcome)
    (rawMood : String) (language : Option String) :
    ((jsTrim rawMood).length < 3 ∨ 500 < (jsTrim rawMood).length →
      (extendedPOST lib urlParses now outcome
        (some (some ⟨some rawMood, language⟩))).code = some .VALIDATION_ERROR ∧
      (extendedPOST lib urlParses now outcome
        (some (some ⟨some rawMood, language⟩))).status = 400 ∧
      (extendedPOST lib urlParses now outcome
        (some (some ⟨some rawMood, language⟩))).networkCalled = false) ∧
    ((jsTrim rawMood).length < 3 →
      (simplePOST lib outcome (some ⟨some rawMood, language⟩)).status = 400 ∧
      (simplePOST lib outcome (some ⟨some rawMood, language⟩)).code = none ∧
      (simplePOST lib outcome (some ⟨some rawMood, language⟩)).networkCalled = false) := by
  constructor
  · intro hlen
    have hval : ∃ msg, validateMusicAPIRequest (some ⟨some rawMood, language⟩) = some msg := by
      unfold validateMusicAPIRequest
      dsimp only
      by_cases h0 : (rawMood == "") = true
      · rw [if_pos h0]
        exact ⟨_, rfl⟩
      · rw [if_neg h0]
        rcases hlen with hlt | hgt
        · rw [if_pos hlt]
          exact ⟨_, rfl⟩
        · rw [if_neg (by omega), if_pos (by omega)]
          exact ⟨_, rfl⟩
    obtain ⟨msg, hmsg⟩ := hval
    have hres : extendedPOST lib urlParses now outcome
        (some (some ⟨some rawMood, language⟩)) =
        createErrorNextResponse .VALIDATION_ERROR (some msg) := by
      unfold extendedPOST
      dsimp only
      rw [hmsg]
    rw [hres]
    exact ⟨rfl, rfl, rfl⟩
  · intro hlt
    unfold simplePOST
    dsimp only
    by_cases h0 : (rawMood == "") = true
    · rw [if_pos h0]
      exact ⟨rfl, rfl, rfl⟩
    · rw [if_neg h0, if_pos hlt]
      exact ⟨rfl, rfl, rfl⟩

/-- C1 witness: the amended theorem at the concrete over-long and
too-short moods. -/
theorem C1_witness :
    (extendedPOST none (fun _ => true) "2024-01-01" (.ok ⟨some []⟩)
      (some (some ⟨some longMood, none⟩))).code = some .VALIDATION_ERROR ∧
    (simplePOST none (.ok ⟨some []⟩) (some ⟨some "ok", none⟩)).status = 400 :=
  ⟨((C1_validation_gate none (fun _ => true) "2024-01-01" (.ok ⟨some []⟩) longMood none).1
      (by right; decide)).1,
   ((C1_validation_gate none (fun _ => true) "2024-01-01" (.ok ⟨some []⟩) "ok" none).2
      (by decide)).1⟩

/-- The message thrown for an empty item list passes `handleAPIError`
unchanged. -/
theorem handleAPIErrorMsg_noVideos :
    handleAPIErrorMsg "No videos found for the specified criteria" =
      "No videos found for the specified criteria" := by
  decide

/-- A fetch of a payload whose item list is missing or empty always
throws. -/
theorem fetchPopularMusic_empty (resp : YouTubeAPIResponse)
    (h : resp.items = some [] ∨ resp.items = none) :
    fetchPopularMusic (.ok resp) =
      .error "No videos found for the specified criteria" := by
  rcases h with h | h <;>
    simp [fetchPopularMusic, h, handleAPIErrorMsg_noVideos]

/-- A valid transformer report has a non-empty cleaned list. -/
theorem handleInvalidAPIData_valid_nonempty (urlParses : String → Bool) (now : String)
    (resp : Option YouTubeAPIResponse)
    (h : (handleInvalidAPIData urlParses now resp).isValid = true) :
    (handleInvalidAPIData urlParses now resp).cleanedData ≠ [] := by
  cases resp with
  | none => simp [handleInvalidAPIData] at h
  | some r =>
    cases hit : r.items with
    | none => simp [handleInvalidAPIData, hit] at h
    | some items =>
      simp only [handleInvalidAPIData, hit] at h ⊢
      by_cases h0 : items.length = 0
      · rw [if_pos h0] at h
        simp at h
      · rw [if_neg h0] at h ⊢
        by_cases h1 : (List.filter (validateTransformedVideo urlParses)
            (List.filterMap (transformVideoItem urlParses now) items)).length = 0
        · rw [if_pos h1] at h
          simp at h
        · rw [if_neg h1] at h ⊢
          dsimp only
          intro hempty
          rw [hempty] at h1
          exact h1 rfl

/-- C2 counterexample: with an empty item list from the gateway, the response of the basic
route is a generic 500 failure carrying no error code at all —
not a failure of API kind. -/
theorem C2_counterexample :
    simplePOST none (.ok ⟨some []⟩) (some ⟨some "feeling happy", none⟩) =
      ⟨500, false, none, some "Unable to analyze your mood. Please try again.",
       none, none, true⟩ := by
  rfl

/-- C2 (amended): when the gateway payload has an empty (or missing) item
list, the extended handler answers `success:false` with code API_ERROR
(status 503), and the basic handler answers `success:false` with status
500 and no code; neither handler ever answers success with an empty video
list (also when every item is dropped, since an all-dropped report is
escalated to API_ERROR by the extended handler). -/
theorem C2_empty_result (lib : Option (String → Option SentimentResult))
    (urlParses : String → Bool) (now : String) :
    (∀ body resp, validateMusicAPIRequest body = none →
      resp.items = some [] ∨ resp.items = none →
      extendedPOST lib urlParses now (.ok resp) (some body) =
        { createErrorNextResponse .API_ERROR
            (some "Unable to fetch music data. Please try again later.") with
          networkCalled := true }) ∧
    (∀ outcome pb, (extendedPOST lib urlParses now outcome pb).success = true →
      ∃ vids, (extendedPOST lib urlParses now outcome pb).data = some vids ∧ vids ≠ []) ∧
    (∀ rawMood language resp, ¬ (rawMood == "") = true → ¬ (jsTrim rawMood).length < 3 →
      resp.items = some [] ∨ resp.items = none →
      simplePOST lib (.ok resp) (some ⟨some rawMood, language⟩) =
        ⟨500, false, none, some "Unable to analyze your mood. Please try again.",
         none, none, true⟩) ∧
    (∀ outcome body, (simplePOST lib outcome body).success = true →
      ∃ vids, (simplePOST lib outcome body).data = some vids ∧ vids ≠ []) := by
  refine ⟨fun body resp hval hresp => ?_, fun outcome pb hsucc => ?_,
    fun rawMood language resp h0 hlt hresp => ?_, fun outcome body hsucc => ?_⟩
  · have hfetch := fetchPopularMusic_empty resp hresp
    simp only [extendedPOST, hval, hfetch]
  · cases pb with
    | none => exact absurd hsucc (by simp [extendedPOST, createErrorNextResponse])
    | some body =>
      cases hv : validateMusicAPIRequest body with
      | some msg => exact absurd hsucc (by simp [extendedPOST, hv, createErrorNextResponse])
      | none =>
        cases hf : fetchPopularMusic outcome with
        | error e =>
          exact absurd hsucc (by simp [extendedPOST, hv, hf, createErrorNextResponse])
        | ok resp =>
          by_cases hdv : (handleInvalidAPIData urlParses now (some resp)).isValid = true
          · refine ⟨(handleInvalidAPIData urlParses now (some resp)).cleanedData, ?_,
              handleInvalidAPIData_valid_nonempty urlParses now (some resp) hdv⟩
            simp [extendedPOST, hv, hf, hdv]
          · exact absurd hsucc
              (by simp [extendedPOST, hv, hf, hdv, createErrorNextResponse])
  · have hfetch := fetchPopularMusic_empty resp hresp
    simp only [simplePOST, hfetch, if_neg h0, if_neg hlt]
  · cases body with
    | none => exact absurd hsucc (by simp [simplePOST])
    | some b =>
      obtain ⟨bm, blang⟩ := b
      cases bm with
      | none => exact absurd hsucc (by simp [simplePOST])
      | some rawMood =>
        by_cases h0 : (rawMood == "") = true
        · exact absurd hsucc (by simp [simplePOST, h0])
        · by_cases hlt : (jsTrim rawMood).length < 3
          · exact absurd hsucc (by simp [simplePOST, h0, hlt])
          · cases outcome with
            | throwErr msg => exact absurd hsucc (by simp [simplePOST, h0, hlt, fetchPopularMusic])
            | httpError s st =>
              exact absurd hsucc (by simp [simplePOST, h0, hlt, fetchPopularMusic])
            | ok resp =>
              cases hit : resp.items with
              | none =>
                exact absurd hsucc
                  (by simp [simplePOST, h0, hlt, fetchPopularMusic, hit])
              | some items =>
                by_cases hlen : items.length = 0
                · exact absurd hsucc
                    (by simp [simplePOST, h0, hlt, fetchPopularMusic, hit, hlen])
                · refine ⟨items.map simpleMapItem, ?_, ?_⟩
                  · have hfetch : fetchPopularMusic (.ok resp) = .ok resp := by
                      simp [fetchPopularMusic, hit, hlen]
                    simp only [simplePOST, hfetch, hit, if_neg h0, if_neg hlt,
                      Option.getD_some]
                  · intro hempty
                    have : items = [] := by
                      cases items with
                      | nil => rfl
                      | cons a l => simp at hempty
                    rw [this] at hlen
                    exact hlen rfl

/-- C2 witness: the amended theorem at a concrete valid body and an
empty-items payload, for both handlers. -/
theorem C2_witness :
    extendedPOST none (fun _ => true) "2024-01-01" (.ok ⟨some []⟩)
        (some (some ⟨some "feeling happy", none⟩)) =
      { createErrorNextResponse .API_ERROR
          (some "Unable to fetch music data. Please try again later.") with
        networkCalled := true } ∧
    simplePOST none (.ok ⟨some []⟩) (some ⟨some "feeling happy", some "en"⟩) =
      ⟨500, false, none, some "Unable to analyze your mood. Please try again.",
       none, none, true⟩ :=
  ⟨((C2_empty_result none (fun _ => true) "2024-01-01").1
      (some ⟨some "feeling happy", none⟩) ⟨some []⟩ (by decide) (Or.inl rfl)),
   ((C2_empty_result none (fun _ => true) "2024-01-01").2.2.1
      "feeling happy" (some "en") ⟨some []⟩ (by decide) (by decide) (Or.inl rfl))⟩

/-- C7 counterexample: the GET handler of the basic route answers with
HTTP status 405 and no error code at all, not a VALIDATION-kind error with
status 400. -/
theorem C7_counterexample :
    routeBasicGET.status = 405 ∧ routeBasicGET.code = none ∧
    routeBasicGET.status ≠ ERROR_STATUS_CODES .VALIDATION_ERROR := by
  decide

/-- C7 amended: `handleUnsupportedMethod` and the extended route handlers for
GET/PUT/DELETE/PATCH answer VALIDATION_ERROR with status 400 and
a message naming the disallowed method; the GET handler of the basic route
instead answers status 405 with a message naming the method but without
an error code. -/
theorem C7_unsupported_methods (method : String) :
    (handleUnsupportedMethod method).status = 400 ∧
    (handleUnsupportedMethod method).code = some .VALIDATION_ERROR ∧
    (handleUnsupportedMethod method).error =
      some ("Method " ++ method ++ " not allowed. Use POST to submit mood data.") ∧
    strContains ((handleUnsupportedMethod method).error.getD "") method = true ∧
    routeExtendedUnsupported method = handleUnsupportedMethod method ∧
    routeBasicGET.status = 405 ∧ routeBasicGET.code = none ∧
    strContains (routeBasicGET.error.getD "") "GET" = true := by
  refine ⟨rfl, rfl, rfl, ?_, rfl, rfl, rfl, by decide⟩
  show strContains ("Method " ++ method ++ " not allowed. Use POST to submit mood data.") method = true
  unfold strContains
  have h : ("Method " ++ method ++ " not allowed. Use POST to submit mood data.").data =
      "Method ".data ++ (method.data ++ " not allowed. Use POST to submit mood data.".data) := by
    simp [String.data_append]
  rw [h]
  exact listInfix_append _ _ _

/-- C9 counterexample: SERVER_ERROR is not classified as retryable by
`isRetryableError`, and its default message is not the message of the table,
contradicting the section 4.8 table row of the claim for SERVER. -/
theorem C9_counterexample :
    isRetryableError .SERVER_ERROR = false ∧
    specTableRetryable .SERVER_ERROR = true ∧
    ERROR_MESSAGES .SERVER_ERROR ≠ specTableMessage .SERVER_ERROR := by
  decide

/-- C9 amended: every ErrorType maps to exactly the status code of the
section 4.8 table; the retryable kinds are exactly API, RATE_LIMIT and
NETWORK (SERVER is not retryable); the default messages equal those of the table
for VALIDATION and API, extend the text of the table with extra guidance for
SERVER, AUTH and NETWORK, and differ in wording for RATE_LIMIT. -/
theorem C9_taxonomy :
    (∀ t, ERROR_STATUS_CODES t = specTableStatus t) ∧
    isRetryableError .API_ERROR = true ∧
    isRetryableError .RATE_LIMIT_ERROR = true ∧
    isRetryableError .NETWORK_ERROR = true ∧
    isRetryableError .VALIDATION_ERROR = false ∧
    isRetryableError .AUTHENTICATION_ERROR = false ∧
    isRetryableError .SERVER_ERROR = false ∧
    ERROR_MESSAGES .VALIDATION_ERROR = specTableMessage .VALIDATION_ERROR ∧
    ERROR_MESSAGES .API_ERROR = specTableMessage .API_ERROR ∧
    jsStartsWith (ERROR_MESSAGES .SERVER_ERROR) (specTableMessage .SERVER_ERROR) = true ∧
    jsStartsWith (ERROR_MESSAGES .AUTHENTICATION_ERROR)
      (specTableMessage .AUTHENTICATION_ERROR) = true ∧
    jsStartsWith (ERROR_MESSAGES .NETWORK_ERROR) (specTableMessage .NETWORK_ERROR) = true ∧
    ERROR_MESSAGES .SERVER_ERROR = "An unexpected error occurred. Please try again." ∧
    ERROR_MESSAGES .RATE_LIMIT_ERROR = "Too many requests. Please wait a moment and try again." := by
  refine ⟨fun t => by cases t <;> rfl, ?_⟩
  decide

end Svaramind
